import Mathlib

/-
Verification of the scope-chain component `gd::VariablesContainersList`
(Core/GDCore/Project/VariablesContainersList.h).

Embedding choices:
- A `gd.Variable` is an external value type; we model it as a wrapper
  around a string payload so that distinct values are distinguishable.
- A `gd.VariablesContainer` is an external collaborator: an ordered
  mapping from variable name to Variable.
- The chain stores non-owning pointers
  (`std::vector<const gd::VariablesContainer*> variablesContainers`).
  Pointers are modelled as natural numbers; a heap environment
  `env : Nat -> VariablesContainer` gives each pointer its pointee.
  Identity comparison of containers is equality of pointers, never of
  contents, exactly as in the C++ code.
- A C++ `const Variable&` returned by `Get` is modelled by `gd.VarRef`:
  either the variable stored under a given name inside a given container,
  or the single shared static sentinel `badVariable`. Reference identity
  is constructor identity.
-/

namespace gd

/-- A variable value (external `gd::Variable`), reduced to a
distinguishable payload. -/
structure Variable where
  value : String
deriving DecidableEq

/-- Modelled from the spec: the shared sentinel "bad variable" instance,
`static Variable badVariable;` whose defining translation unit is outside
the sources at hand; the spec calls it a fixed, clearly-identifiable
default value. -/
def badVariable : Variable := ⟨""⟩

/-- A variables container (external `gd::VariablesContainer`): per the
spec, an ordered mapping from variable name to Variable. -/
structure VariablesContainer where
  entries : List (String × Variable)
deriving DecidableEq

/-- Look up a name in a single container: the first binding for the name,
if any. -/
def VariablesContainer.find (c : VariablesContainer) (name : String) :
    Option Variable :=
  (c.entries.find? (fun p => p.1 == name)).map Prod.snd

/-- True when the container defines the name. -/
def VariablesContainer.Has (c : VariablesContainer) (name : String) : Bool :=
  (c.find name).isSome

/-- The scope chain `gd::VariablesContainersList`: an ordered sequence of
non-owning pointers to externally owned containers (the data member
`std::vector<const gd::VariablesContainer*> variablesContainers`). -/
structure VariablesContainersList where
  variablesContainers : List Nat
deriving DecidableEq

/-- The public default constructor `VariablesContainersList() {}` from the
header: the vector member is value-initialized, so the sequence is empty. -/
def VariablesContainersList.new : VariablesContainersList := ⟨[]⟩

/-- `Add` from the header:
`variablesContainers.push_back(&variablesContainer);` appends the pointer
at the end of the sequence. -/
def VariablesContainersList.Add (l : VariablesContainersList) (c : Nat) :
    VariablesContainersList :=
  ⟨l.variablesContainers ++ [c]⟩

/-- Modelled from the spec: `Has(name)` returns true iff at least one
container in the sequence defines `name`, scanning in sequence order. -/
def VariablesContainersList.Has (env : Nat → VariablesContainer)
    (l : VariablesContainersList) (name : String) : Bool :=
  l.variablesContainers.any (fun c => (env c).Has name)

/-- A C++ `const Variable&` as returned by `Get`: a reference either to
the variable stored under `name` inside container `container`, or to the
shared static sentinel. -/
inductive VarRef where
  | inContainer (container : Nat) (name : String)
  | badVariableRef
deriving DecidableEq

/-- Modelled from the spec: `Get(name)` returns a reference to the
variable from the first (lowest-index) container in the sequence that
defines `name`, and a reference to the shared sentinel `badVariable` when
no container defines it (the body lives in the missing translation
unit). -/
def VariablesContainersList.Get (env : Nat → VariablesContainer)
    (l : VariablesContainersList) (name : String) : VarRef :=
  match l.variablesContainers.find? (fun c => (env c).Has name) with
  | some c => VarRef.inContainer c name
  | none => VarRef.badVariableRef

/-- The variable value a reference denotes. -/
def derefVar (env : Nat → VariablesContainer) : VarRef → Variable
  | VarRef.inContainer c n => ((env c).find n).getD badVariable
  | VarRef.badVariableRef => badVariable

/-- Modelled from the spec: `HasVariablesContainer(container)` returns
true iff the given container instance is part of the chain's sequence,
compared by identity (pointer equality), never by contents. -/
def VariablesContainersList.HasVariablesContainer
    (l : VariablesContainersList) (c : Nat) : Bool :=
  l.variablesContainers.contains c

/-- A project (external `gd::Project`), reduced to what the factory
consumes: the pointer to its global variables container. -/
structure Project where
  variablesContainer : Nat

/-- A layout (external `gd::Layout`), reduced to what the factory
consumes: the pointer to its scene variables container. -/
structure Layout where
  variablesContainer : Nat

/-- Modelled from the spec:
`MakeNewVariablesContainersListForProjectAndLayout` assembles the layout
(scene) variables container first, then the project (global) variables
container, via `Add` calls on a fresh chain. -/
def VariablesContainersList.MakeNewVariablesContainersListForProjectAndLayout
    (project : Project) (layout : Layout) : VariablesContainersList :=
  (VariablesContainersList.new.Add layout.variablesContainer).Add
    project.variablesContainer

/-- Modelled from the spec: `MakeNewEmptyVariablesContainersList` builds a
chain with zero containers. -/
def VariablesContainersList.MakeNewEmptyVariablesContainersList :
    VariablesContainersList :=
  ⟨[]⟩

/-- The const member function `Has` as an explicit state transformer: the
header declares it `const`, so a call returns its result together with the
unchanged object. -/
def VariablesContainersList.HasCall (env : Nat → VariablesContainer)
    (l : VariablesContainersList) (name : String) :
    Bool × VariablesContainersList :=
  (l.Has env name, l)

/-- The const member function `Get` as an explicit state transformer. -/
def VariablesContainersList.GetCall (env : Nat → VariablesContainer)
    (l : VariablesContainersList) (name : String) :
    VarRef × VariablesContainersList :=
  (l.Get env name, l)

/-- The const member function `HasVariablesContainer` as an explicit state
transformer. -/
def VariablesContainersList.HasVariablesContainerCall
    (l : VariablesContainersList) (c : Nat) :
    Bool × VariablesContainersList :=
  (l.HasVariablesContainer c, l)

/-- A concrete heap used by the witnesses: pointer 0 holds a container
defining x, pointers 1, 2, ... hold identical containers defining x (with
a different value) and y. -/
def envW : Nat → VariablesContainer :=
  fun c =>
    if c = 0 then ⟨[("x", ⟨"v1"⟩)]⟩
    else ⟨[("x", ⟨"v2"⟩), ("y", ⟨"w"⟩)]⟩

end gd

open gd

theorem hasVariablesContainer_iff_mem (l : VariablesContainersList)
    (c : Nat) :
    l.HasVariablesContainer c = true ↔ c ∈ l.variablesContainers := by
  simp [VariablesContainersList.HasVariablesContainer, List.contains]

theorem has_iff_exists_container (env : Nat → VariablesContainer)
    (l : VariablesContainersList) (name : String) :
    l.Has env name = true ↔
      ∃ c ∈ l.variablesContainers, (env c).Has name = true := by
  simp [VariablesContainersList.Has, List.any_eq_true]

/-- C1: Shadowing / first-match lookup: on a chain whose sequence is c1
then c2, a name defined in both containers resolves to c1's variable (the
first, lowest-index container defining it), and a name defined only in c2
falls through and resolves to c2's variable. -/
theorem C1_first_match_shadowing (env : Nat → VariablesContainer)
    (c1 c2 : Nat) (name name2 : String)
    (h1 : (env c1).Has name = true) (h2 : (env c2).Has name = true)
    (h3 : (env c1).Has name2 = false) (h4 : (env c2).Has name2 = true) :
    (⟨[c1, c2]⟩ : VariablesContainersList).Get env name =
        VarRef.inContainer c1 name ∧
    derefVar env ((⟨[c1, c2]⟩ : VariablesContainersList).Get env name) =
        ((env c1).find name).getD badVariable ∧
    (⟨[c1, c2]⟩ : VariablesContainersList).Get env name2 =
        VarRef.inContainer c2 name2 ∧
    (⟨[c1, c2]⟩ : VariablesContainersList).Has env name2 = true := by
  have f1 :
      List.find? (fun c => (env c).Has name) [c1, c2] = some c1 :=
    List.find?_cons_of_pos _ h1
  have f2 :
      List.find? (fun c => (env c).Has name2) [c1, c2] = some c2 := by
    rw [List.find?_cons_of_neg _ (by simp [h3])]
    exact List.find?_cons_of_pos _ h4
  have g1 :
      (⟨[c1, c2]⟩ : VariablesContainersList).Get env name =
        VarRef.inContainer c1 name := by
    unfold VariablesContainersList.Get
    rw [f1]
  have g2 :
      (⟨[c1, c2]⟩ : VariablesContainersList).Get env name2 =
        VarRef.inContainer c2 name2 := by
    unfold VariablesContainersList.Get
    rw [f2]
  refine ⟨g1, ?_, g2, ?_⟩
  · rw [g1]
    rfl
  · simp [VariablesContainersList.Has, h4]

theorem C1_first_match_shadowing_witness :
    (envW 0).Has "x" = true ∧ (envW 1).Has "x" = true ∧
    (envW 0).Has "y" = false ∧ (envW 1).Has "y" = true ∧
    ((⟨[0, 1]⟩ : VariablesContainersList).Get envW "x" =
        VarRef.inContainer 0 "x" ∧
      derefVar envW ((⟨[0, 1]⟩ : VariablesContainersList).Get envW "x") =
        ((envW 0).find "x").getD badVariable ∧
      (⟨[0, 1]⟩ : VariablesContainersList).Get envW "y" =
        VarRef.inContainer 1 "y" ∧
      (⟨[0, 1]⟩ : VariablesContainersList).Has envW "y" = true) :=
  ⟨by decide, by decide, by decide, by decide,
    C1_first_match_shadowing envW 0 1 "x" "y"
      (by decide) (by decide) (by decide) (by decide)⟩

/-- C2: a name absent from every container of the chain makes Get return
the shared sentinel bad-variable reference, and any two such calls (on any
chains, heaps and names) yield the very same reference. -/
theorem C2_absent_name_sentinel (env env2 : Nat → VariablesContainer)
    (l l2 : VariablesContainersList) (name name2 : String)
    (h : ∀ c ∈ l.variablesContainers, (env c).Has name = false)
    (h2 : ∀ c ∈ l2.variablesContainers, (env2 c).Has name2 = false) :
    l.Get env name = VarRef.badVariableRef ∧
    l2.Get env2 name2 = l.Get env name := by
  have f :
      l.variablesContainers.find? (fun c => (env c).Has name) = none :=
    List.find?_eq_none.mpr (fun a ha => by simp [h a ha])
  have f2 :
      l2.variablesContainers.find? (fun c => (env2 c).Has name2) = none :=
    List.find?_eq_none.mpr (fun a ha => by simp [h2 a ha])
  have g : l.Get env name = VarRef.badVariableRef := by
    unfold VariablesContainersList.Get
    rw [f]
  have g2 : l2.Get env2 name2 = VarRef.badVariableRef := by
    unfold VariablesContainersList.Get
    rw [f2]
  exact ⟨g, g2.trans g.symm⟩

theorem C2_absent_name_sentinel_witness :
    (∀ c ∈ (⟨[0, 1]⟩ : VariablesContainersList).variablesContainers,
        (envW c).Has "z" = false) ∧
    (∀ c ∈ (⟨[]⟩ : VariablesContainersList).variablesContainers,
        (envW c).Has "q" = false) ∧
    ((⟨[0, 1]⟩ : VariablesContainersList).Get envW "z" =
        VarRef.badVariableRef ∧
      (⟨[]⟩ : VariablesContainersList).Get envW "q" =
        (⟨[0, 1]⟩ : VariablesContainersList).Get envW "z") :=
  ⟨by decide, by decide,
    C2_absent_name_sentinel envW envW ⟨[0, 1]⟩ ⟨[]⟩ "z" "q"
      (by decide) (by decide)⟩

/-- C3: Has(name) is true iff some container of the chain defines the
name, iff Get(name) does not return the sentinel reference. -/
theorem C3_has_get_agreement (env : Nat → VariablesContainer)
    (l : VariablesContainersList) (name : String) :
    (l.Has env name = true ↔
      ∃ c ∈ l.variablesContainers, (env c).Has name = true) ∧
    (l.Has env name = true ↔ l.Get env name ≠ VarRef.badVariableRef) := by
  refine ⟨has_iff_exists_container env l name, ?_⟩
  constructor
  · intro hhas
    obtain ⟨c, hc, hp⟩ := (has_iff_exists_container env l name).mp hhas
    unfold VariablesContainersList.Get
    cases hf : l.variablesContainers.find? (fun c => (env c).Has name) with
    | some d => simp
    | none => exact absurd hp (by simpa using List.find?_eq_none.mp hf c hc)
  · intro hget
    refine (has_iff_exists_container env l name).mpr ?_
    cases hf : l.variablesContainers.find? (fun c => (env c).Has name) with
    | some d =>
        exact ⟨d, List.mem_of_find?_eq_some hf,
          List.find?_some (p := fun c => (env c).Has name) hf⟩
    | none =>
        exfalso
        apply hget
        unfold VariablesContainersList.Get
        rw [hf]

/-- C4: the project-and-layout factory builds the chain with the layout
(scene) container first, then the project (global) container, so a layout
variable shadows a same-named project variable. -/
theorem C4_factory_order (p : Project) (lay : Layout)
    (env : Nat → VariablesContainer) (name : String)
    (h : (env lay.variablesContainer).Has name = true) :
    (VariablesContainersList.MakeNewVariablesContainersListForProjectAndLayout
        p lay).variablesContainers =
      [lay.variablesContainer, p.variablesContainer] ∧
    (VariablesContainersList.MakeNewVariablesContainersListForProjectAndLayout
        p lay).Get env name =
      VarRef.inContainer lay.variablesContainer name := by
  refine ⟨rfl, ?_⟩
  have f : List.find? (fun c => (env c).Has name)
      [lay.variablesContainer, p.variablesContainer] =
        some lay.variablesContainer :=
    List.find?_cons_of_pos (p := fun c => (env c).Has name) _ h
  unfold VariablesContainersList.MakeNewVariablesContainersListForProjectAndLayout
  unfold VariablesContainersList.Get
  show (match List.find? (fun c => (env c).Has name)
      [lay.variablesContainer, p.variablesContainer] with
    | some c => VarRef.inContainer c name
    | none => VarRef.badVariableRef) =
      VarRef.inContainer lay.variablesContainer name
  rw [f]

theorem C4_factory_order_witness :
    (envW 0).Has "x" = true ∧
    ((VariablesContainersList.MakeNewVariablesContainersListForProjectAndLayout
        ⟨1⟩ ⟨0⟩).variablesContainers = [0, 1] ∧
      (VariablesContainersList.MakeNewVariablesContainersListForProjectAndLayout
          ⟨1⟩ ⟨0⟩).Get envW "x" = VarRef.inContainer 0 "x") :=
  ⟨by decide, C4_factory_order ⟨1⟩ ⟨0⟩ envW "x" (by decide)⟩

/-- C5: HasVariablesContainer is identity-based membership: it answers
true exactly for the container pointers in the chain's sequence, and false
for a container never added, even when that container's contents are
identical to a member's contents. -/
theorem C5_identity_membership (env : Nat → VariablesContainer)
    (l : VariablesContainersList) (c c3 : Nat)
    (hmem : c ∈ l.variablesContainers)
    (hnot : c3 ∉ l.variablesContainers)
    (hsame : env c3 = env c) :
    (∀ d, l.HasVariablesContainer d = true ↔ d ∈ l.variablesContainers) ∧
    l.HasVariablesContainer c = true ∧
    l.HasVariablesContainer c3 = false := by
  refine ⟨fun d => hasVariablesContainer_iff_mem l d, ?_, ?_⟩
  · exact (hasVariablesContainer_iff_mem l c).mpr hmem
  · cases hval : l.HasVariablesContainer c3 with
    | false => rfl
    | true =>
        exact absurd ((hasVariablesContainer_iff_mem l c3).mp hval) hnot

theorem C5_identity_membership_witness :
    (1 ∈ (⟨[1]⟩ : VariablesContainersList).variablesContainers) ∧
    (2 ∉ (⟨[1]⟩ : VariablesContainersList).variablesContainers) ∧
    envW 2 = envW 1 ∧
    ((∀ d, (⟨[1]⟩ : VariablesContainersList).HasVariablesContainer d = true ↔
        d ∈ (⟨[1]⟩ : VariablesContainersList).variablesContainers) ∧
      (⟨[1]⟩ : VariablesContainersList).HasVariablesContainer 1 = true ∧
      (⟨[1]⟩ : VariablesContainersList).HasVariablesContainer 2 = false) :=
  ⟨by decide, by decide, by decide,
    C5_identity_membership envW ⟨[1]⟩ 1 2 (by decide) (by decide) (by decide)⟩

/-- C6: the empty-chain factory yields a chain on which every name is
not-found: Has is false, Get returns the sentinel reference, and no
container is a member. -/
theorem C6_empty_chain_not_found (env : Nat → VariablesContainer)
    (name : String) (c : Nat) :
    VariablesContainersList.MakeNewEmptyVariablesContainersList.Has env
        name = false ∧
    VariablesContainersList.MakeNewEmptyVariablesContainersList.Get env
        name = VarRef.badVariableRef ∧
    VariablesContainersList.MakeNewEmptyVariablesContainersList.HasVariablesContainer
        c = false :=
  ⟨rfl, rfl, rfl⟩

/-- C7: the three query methods are side-effect-free: each call leaves
the chain unchanged, so an immediately repeated call on the resulting
state returns the same result. -/
theorem C7_queries_side_effect_free (env : Nat → VariablesContainer)
    (l : VariablesContainersList) (name : String) (c : Nat) :
    (l.HasCall env name).2 = l ∧
    (l.GetCall env name).2 = l ∧
    (l.HasVariablesContainerCall c).2 = l ∧
    ((l.HasCall env name).2.HasCall env name).1 = (l.HasCall env name).1 ∧
    ((l.GetCall env name).2.GetCall env name).1 = (l.GetCall env name).1 ∧
    ((l.HasVariablesContainerCall c).2.HasVariablesContainerCall c).1 =
      (l.HasVariablesContainerCall c).1 :=
  ⟨rfl, rfl, rfl, rfl, rfl, rfl⟩

/-- C8: Add appends the given container pointer at the end of the
sequence, leaving the existing elements and their order unchanged, and
afterwards HasVariablesContainer answers true for it. -/
theorem C8_add_appends (l : VariablesContainersList) (c : Nat) :
    (l.Add c).variablesContainers = l.variablesContainers ++ [c] ∧
    (l.Add c).HasVariablesContainer c = true := by
  refine ⟨rfl, ?_⟩
  refine (hasVariablesContainer_iff_mem (l.Add c) c).mpr ?_
  show c ∈ l.variablesContainers ++ [c]
  exact List.mem_append_right _ (List.mem_singleton_self c)

/-- C9: the public default constructor builds the same chain as the
empty-chain factory: zero containers, and Has, Get and
HasVariablesContainer answer identically on both for every input. -/
theorem C9_default_ctor_equiv_empty (env : Nat → VariablesContainer)
    (name : String) (c : Nat) :
    VariablesContainersList.new =
      VariablesContainersList.MakeNewEmptyVariablesContainersList ∧
    VariablesContainersList.new.variablesContainers = [] ∧
    VariablesContainersList.new.Has env name =
      VariablesContainersList.MakeNewEmptyVariablesContainersList.Has env
        name ∧
    VariablesContainersList.new.Get env name =
      VariablesContainersList.MakeNewEmptyVariablesContainersList.Get env
        name ∧
    VariablesContainersList.new.HasVariablesContainer c =
      VariablesContainersList.MakeNewEmptyVariablesContainersList.HasVariablesContainer
        c :=
  ⟨rfl, rfl, rfl, rfl, rfl⟩

/-- C10: under the precondition Has(name) = true, the sentinel branch of
Get is unreachable: Get returns a reference to a variable held by one of
the chain's containers, never the shared bad-variable sentinel. -/
theorem C10_sentinel_unreachable (env : Nat → VariablesContainer)
    (l : VariablesContainersList) (name : String)
    (h : l.Has env name = true) :
    l.Get env name ≠ VarRef.badVariableRef ∧
    ∃ c ∈ l.variablesContainers, (env c).Has name = true ∧
      l.Get env name = VarRef.inContainer c name := by
  obtain ⟨c, hc, hp⟩ := (has_iff_exists_container env l name).mp h
  cases hf : l.variablesContainers.find? (fun c => (env c).Has name) with
  | none =>
      exact absurd hp (by simpa using List.find?_eq_none.mp hf c hc)
  | some d =>
      have hg : l.Get env name = VarRef.inContainer d name := by
        unfold VariablesContainersList.Get
        rw [hf]
      refine ⟨by rw [hg]; exact fun hcontr => VarRef.noConfusion hcontr, ?_⟩
      exact ⟨d, List.mem_of_find?_eq_some hf,
        List.find?_some (p := fun c => (env c).Has name) hf, hg⟩

theorem C10_sentinel_unreachable_witness :
    (⟨[0, 1]⟩ : VariablesContainersList).Has envW "y" = true ∧
    ((⟨[0, 1]⟩ : VariablesContainersList).Get envW "y" ≠
        VarRef.badVariableRef ∧
      ∃ c ∈ (⟨[0, 1]⟩ : VariablesContainersList).variablesContainers,
        (envW c).Has "y" = true ∧
        (⟨[0, 1]⟩ : VariablesContainersList).Get envW "y" =
          VarRef.inContainer c "y") :=
  ⟨by decide, C10_sentinel_unreachable envW ⟨[0, 1]⟩ "y" (by decide)⟩
